import Mathlib

/-!
Verification of the evohome_rf command/response engine and system model.

The development shallowly embeds the Python sources:
  - src/evohome_rf/command.py  (packet headers, Command ordering/validity,
    FaultLog driver, Schedule driver and its lock)
  - src/evohome/system.py      (sticky boiler_control / dhw setters,
    zone-sensor discovery, EvoSystem.update dispatch)

Python strings are modelled as lists of characters (Str), Python dicts as
association lists, datetimes as natural-number seconds.  Parts of the
repository that the sources import but that are not present (const.py,
helpers.py) are modelled from the specification and are marked as such in
their doc comments.
-/

/-- Python strings are modelled as lists of characters. -/
abbrev Str := List Char

/-- Python slicing s[a:b] (for a ≤ b). -/
def pySlice (s : Str) (a b : Nat) : Str := (s.drop a).take (b - a)

/-- Python zero-padded 3-digit formatting for n < 1000, used for the length field of a
packet; faithful to the source for all payloads that can occur (length
field ≤ 48 for a ≤ 96-char payload, and ≤ 999 in general). -/
def pad3 (n : Nat) : Str :=
  if n < 10 then ['0', '0', Nat.digitChar n]
  else if n < 100 then ['0', Nat.digitChar (n / 10), Nat.digitChar (n % 10)]
  else [Nat.digitChar (n / 100), Nat.digitChar (n / 10 % 10), Nat.digitChar (n % 10)]

/-- Priority constants from command.py:
Priority = SimpleNamespace(LOWEST=8, LOW=6, DEFAULT=4, HIGH=2, HIGHEST=0). -/
def Priority.LOWEST : Nat := 8

/-- Priority.LOW = 6. -/
def Priority.LOW : Nat := 6

/-- Priority.DEFAULT = 4. -/
def Priority.DEFAULT : Nat := 4

/-- Priority.HIGH = 2. -/
def Priority.HIGH : Nat := 2

/-- Priority.HIGHEST = 0. -/
def Priority.HIGHEST : Nat := 0

/-- Modelled from the spec: HGI_DEVICE.id (const.py is not in src/); the
spec says the gateway is the HGI, an address of device type 18. -/
def HGI_id : Str := "18:000730".toList

/-- An outbound command (command.py, class Command).  The fields verb,
from_addr, dest_addr, code and payload are those set by the constructor;
priority and priority_dtm are the QoS priority and the creation timestamp
used by the ordering methods. -/
structure Command where
  verb : Str
  from_addr : Str
  dest_addr : Str
  code : Str
  payload : Str
  priority : Nat
  priority_dtm : Nat
deriving DecidableEq

/-- Command._qos default priority: DEFAULT, except HIGH for RQ 0016/1F09,
HIGH for RQ/W 0404, and LOW for RQ 0418 (command.py, property _qos). -/
def default_qos_priority (verb code : Str) : Nat :=
  if (code = "0016".toList ∨ code = "1F09".toList) ∧ verb = "RQ".toList then
    Priority.HIGH
  else if code = "0404".toList ∧ (verb = "RQ".toList ∨ verb = " W".toList) then
    Priority.HIGH
  else if code = "0418".toList ∧ verb = "RQ".toList then Priority.LOW
  else Priority.DEFAULT

/-- Command._qos default retries: 3, except 5 for RQ 0016/1F09. -/
def default_qos_retries (verb code : Str) : Nat :=
  if (code = "0016".toList ∨ code = "1F09".toList) ∧ verb = "RQ".toList then 5
  else 3

/-- Command.__init__ with the default from_addr (HGI) and the default QoS
priority; dest_addr falls back to from_addr when absent, as in the source.
The creation timestamp dtm stands for dt_now(). -/
def mkCommand (verb : Str) (dest_addr : Option Str) (code payload : Str)
    (dtm : Nat) : Command :=
  { verb := verb
    from_addr := HGI_id
    dest_addr := dest_addr.getD HGI_id
    code := code
    payload := payload
    priority := default_qos_priority verb code
    priority_dtm := dtm }

/-- Command.__str__: COMMAND_FORMAT.format(verb, from_addr, dest_addr,
code, len(payload)/2, payload).  Modelled from the spec: COMMAND_FORMAT
itself lives in const.py (not in src/); per the spec wire grammar a
command line is verb, "---", src, dst, the null context address, code,
the 3-digit length, payload. -/
def cmdStr (c : Command) : Str :=
  c.verb ++ " --- ".toList ++ c.from_addr ++ " ".toList ++ c.dest_addr
    ++ " --:------ ".toList ++ c.code ++ " ".toList
    ++ pad3 (c.payload.length / 2) ++ " ".toList ++ c.payload

/-- The packet string handed to _pkt_header by tx_header/rx_header, i.e.
"... " followed by str(self). -/
def cmdPkt (c : Command) : Str := "... ".toList ++ cmdStr c

/-- The function _pkt_header of command.py.  The packet is sliced at the
fixed offsets of the source (verb at 4:6, code at 41:45, payload from 50);
extract_addrs (helpers.py, not in src/) is modelled from the spec field
layout: src at 11:20, dst at 21:30, an address's type being its first two
characters.  The sets CODES_SANS_DOMAIN_ID and the 0418 null_rp sentinel
live in const.py (not in src/) and are taken as parameters. -/
def _pkt_header (sans : List Str) (null_rp : Str) (pkt : Str) (rx : Bool) :
    Option Str :=
  let verb := if rx then
      (if pySlice pkt 4 6 = "RQ".toList then ("RP".toList) else (" I".toList))
    else pySlice pkt 4 6
  let code := pySlice pkt 41 45
  let src := pySlice pkt 11 20
  let dst := pySlice pkt 21 30
  let addr := if pySlice pkt 11 13 = "18".toList then dst else src
  let payload := pkt.drop 50
  let header := verb ++ "|".toList ++ addr ++ "|".toList ++ code
  if (code = "0001".toList ∨ code = "7FFF".toList) ∧ rx then none
  else if code = "0005".toList ∨ code = "000C".toList then
    some (header ++ "|".toList ++ payload.take 4)
  else if code = "0404".toList then
    some (header ++ "|".toList ++ (pySlice payload 0 2 ++ pySlice payload 10 12))
  else if code = "0418".toList then
    if payload = null_rp then some header
    else some (header ++ "|".toList ++ pySlice payload 4 6)
  else if code ∈ sans then some header
  else some (header ++ "|".toList ++ pySlice payload 0 2)

/-- Command.tx_header: the QoS header of this request packet. -/
def tx_header (sans : List Str) (null_rp : Str) (c : Command) : Option Str :=
  _pkt_header sans null_rp (cmdPkt c) false

/-- Command.rx_header: the QoS header of a matching response packet, only
computed when the TX header exists (as in the source). -/
def rx_header (sans : List Str) (null_rp : Str) (c : Command) : Option Str :=
  match tx_header sans null_rp c with
  | none => none
  | some _ => _pkt_header sans null_rp (cmdPkt c) true

/-- Claim-side verb rewriting for the RX header: RQ becomes RP, W becomes
I, the info verb is unchanged. -/
def rewrite_verb (v : Str) : Str :=
  if v = "RQ".toList then ("RP".toList)
  else if v = " W".toList then (" I".toList)
  else v

/-- Claim-side peer address: the gateway's counterparty, i.e. the
destination when the source is the type-18 gateway, else the source. -/
def spec_peer (c : Command) : Str :=
  if c.from_addr.take 2 = "18".toList then c.dest_addr else c.from_addr

/-- Claim-side context suffix of the correlation header, per the claim:
0005/000C use the first 4 payload characters, 0404 uses payload[0:2] and
payload[10:12], 0418 has no suffix on the null-RP sentinel and otherwise
payload[4:6], codes sans domain id have no suffix, all others use
payload[0:2]. -/
def spec_context (sans : List Str) (null_rp : Str) (c : Command) :
    Option Str :=
  if c.code = "0005".toList ∨ c.code = "000C".toList then
    some (c.payload.take 4)
  else if c.code = "0404".toList then
    some (pySlice c.payload 0 2 ++ pySlice c.payload 10 12)
  else if c.code = "0418".toList then
    if c.payload = null_rp then none else some (pySlice c.payload 4 6)
  else if c.code ∈ sans then none
  else some (pySlice c.payload 0 2)

/-- Claim-side TX header: verb, peer address and code joined by bars, with
the code-specific context suffix appended when present. -/
def spec_tx (sans : List Str) (null_rp : Str) (c : Command) : Str :=
  c.verb ++ "|".toList ++ spec_peer c ++ "|".toList ++ c.code ++
    (match spec_context sans null_rp c with
     | some ctx => "|".toList ++ ctx
     | none => [])

/-- Claim-side RX header: none for fire-and-forget codes 0001 and 7FFF,
else the TX header with the verb rewritten. -/
def spec_rx (sans : List Str) (null_rp : Str) (c : Command) : Option Str :=
  if c.code = "0001".toList ∨ c.code = "7FFF".toList then none
  else some (rewrite_verb c.verb ++ "|".toList ++ spec_peer c ++ "|".toList
    ++ c.code ++
    (match spec_context sans null_rp c with
     | some ctx => "|".toList ++ ctx
     | none => []))

/-- Command.__eq__: compares the pairs (priority, creation time) only. -/
def Command.eq (a b : Command) : Bool :=
  decide (a.priority = b.priority ∧ a.priority_dtm = b.priority_dtm)

/-- Command.__lt__: Python tuple comparison of (priority, creation time),
i.e. lexicographic. -/
def Command.lt (a b : Command) : Bool :=
  decide (a.priority < b.priority ∨
    (a.priority = b.priority ∧ a.priority_dtm < b.priority_dtm))

/-- The non-strict order derived by functools.total_ordering from __lt__
and __eq__. -/
def Command.le (a b : Command) : Bool := a.lt b || a.eq b

/-- Insertion step of a stable sort by Command.le; models one element
finding its place in the priority queue. -/
def insertCmd (x : Command) : List Command → List Command
  | [] => [x]
  | y :: ys => if x.le y then x :: y :: ys else y :: insertCmd x ys

/-- Stable insertion sort by Command.le: the order in which the transport
pops enqueued commands (lowest (priority, creation time) first). -/
def sortCmds : List Command → List Command
  | [] => []
  | x :: xs => insertCmd x (sortCmds xs)

/-- Uppercase-hex-digit test used by the wire grammar model. -/
def isHexDigitU (ch : Char) : Bool := ch.isDigit || "ABCDEF".toList.contains ch

/-- Device-address test of the wire grammar: two digits, a colon, six
digits. -/
def isAddrStr (a : Str) : Bool :=
  match a with
  | [t1, t2, c0, d1, d2, d3, d4, d5, d6] =>
    t1.isDigit && t2.isDigit && (c0 = ':') && d1.isDigit && d2.isDigit
      && d3.isDigit && d4.isDigit && d5.isDigit && d6.isDigit
  | _ => false

/-- Modelled from the spec: COMMAND_REGEX (const.py, not in src/).  The
spec's wire grammar for an emitted command: a verb among I, RQ, RP, W,
well-formed source and destination addresses, a 4-hex-digit code, and a
non-empty even-length uppercase-hex payload.  The grammar itself states
no upper bound on the payload length (the 96-character bound is the
separate invariant whose check in is_valid is under test). -/
def COMMAND_REGEX_match (c : Command) : Bool :=
  (c.verb == " I".toList || c.verb == "RQ".toList || c.verb == "RP".toList
      || c.verb == " W".toList)
    && isAddrStr c.from_addr && isAddrStr c.dest_addr
    && (c.code.length == 4) && c.code.all isHexDigitU
    && !(c.payload == []) && c.payload.all isHexDigitU
    && (c.payload.length % 2 == 0)

/-- Command.is_valid of command.py, transcribed faithfully: the command is
invalid when the regex does not match, invalid when
0 > len(payload) > 96 — a Python chained comparison, i.e. the conjunction
(0 > len) and (len > 96) — and valid otherwise. -/
def is_valid (c : Command) : Bool :=
  if !(COMMAND_REGEX_match c) then false
  else if decide (0 > c.payload.length) && decide (c.payload.length > 96) then
    false
  else true

/-- Value of a hexadecimal digit, as Python int(s, 16) reads one. -/
def hexVal (ch : Char) : Nat :=
  if ch.isDigit then ch.toNat - 48
  else if 'A' ≤ ch ∧ ch ≤ 'F' then ch.toNat - 55
  else if 'a' ≤ ch ∧ ch ≤ 'f' then ch.toNat - 87
  else 0

/-- Python int(s, 16) on a hex string. -/
def hexToNat (s : Str) : Nat := s.foldl (fun acc ch => acc * 16 + hexVal ch) 0

/-- Uppercase hexadecimal digit of a value below 16. -/
def hexDigitU (n : Nat) : Char := "0123456789ABCDEF".toList.getD n '0'

/-- Python zero-padded 6-digit uppercase hex formatting, faithful for
n < 16^6 (log indices are at most 0x3C). -/
def natToHex6 (n : Nat) : Str :=
  [hexDigitU (n / 16 ^ 5 % 16), hexDigitU (n / 16 ^ 4 % 16),
   hexDigitU (n / 16 ^ 3 % 16), hexDigitU (n / 16 ^ 2 % 16),
   hexDigitU (n / 16 % 16), hexDigitU (n % 16)]

/-- Python dict assignment m[k] = v on an insertion-ordered dict modelled
as an association list: an existing key keeps its position, a new key is
appended. -/
def dictSet {κ α : Type} [DecidableEq κ] : List (κ × α) → κ → α → List (κ × α)
  | [], k, v => [(k, v)]
  | kv :: rest, k, v =>
    if kv.1 = k then (k, v) :: rest else kv :: dictSet rest k v

/-- Python dict lookup m.get(k) on an association list. -/
def dictGet {κ α : Type} [DecidableEq κ] : List (κ × α) → κ → Option α
  | [], _ => none
  | kv :: rest, k => if kv.1 = k then some kv.2 else dictGet rest k

/-- Default fault-log page limit (FaultLog.__init__: self._limit = 11). -/
def FaultLog_limit : Nat := 11

/-- The rq_callback of FaultLog._rq_log_entry (command.py lines 480-499),
acting on the current fault-log dict and one reply.  The reply payload is
the parsed message payload: an association list that carries the log_idx
as a hex string plus the entry fields.  Result: the updated dict, the
done flag, and the next log index requested (if any).  None stands for an
expired callback. -/
def rq_log_callback (limit : Nat) (fault_log : List (Nat × List (Str × Str)))
    (msg : Option (List (Str × Str))) :
    List (Nat × List (Str × Str)) × Bool × Option Nat :=
  match msg with
  | none => (fault_log, true, none)
  | some payload =>
    let log := payload.filter (fun kv => decide (kv.1 ≠ "log_idx".toList))
    let log_idx := hexToNat ((dictGet payload ("log_idx".toList)).getD [])
    if log.isEmpty then (fault_log, true, none)
    else
      let fl := dictSet fault_log log_idx log
      if log_idx < limit then (fl, false, some (log_idx + 1))
      else (fl, true, none)

/-- The command _rq_log_entry sends for a given log index:
Command(RQ, ctl, 0418, 6-hex-digit index). -/
def rq_log_command (ctl : Str) (log_idx : Nat) (dtm : Nat) : Command :=
  mkCommand ("RQ".toList) (some ctl) ("0418".toList) (natToHex6 log_idx) dtm

/-- The request/reply loop of the fault-log driver: request the current
index, feed the oracle's reply to rq_log_callback, and continue at the
index it asks for next.  The fuel bounds the number of exchanges (the
driver's long timeout); the returned list records every index requested,
in order. -/
def faultLogRun (limit : Nat) (oracle : Nat → Option (List (Str × Str))) :
    Nat → Nat → List (Nat × List (Str × Str)) → List Nat →
    List (Nat × List (Str × Str)) × Bool × List Nat
  | 0, _, fl, reqs => (fl, false, reqs)
  | fuel + 1, idx, fl, reqs =>
    match rq_log_callback limit fl (oracle idx) with
    | (fl2, done, none) => (fl2, done, reqs ++ [idx])
    | (fl2, _, some next) => faultLogRun limit oracle fuel next fl2 (reqs ++ [idx])

/-- FaultLog.get_fault_log: reset the dict to empty and pull entries
starting from log_idx = 0. -/
def get_fault_log (limit : Nat) (oracle : Nat → Option (List (Str × Str)))
    (fuel : Nat) : List (Nat × List (Str × Str)) × Bool × List Nat :=
  faultLogRun limit oracle fuel 0 [] []

/-- One attempt of Schedule._obtain_lock's loop body: take zone_lock, set
zone_lock_idx to this zone's idx if it is None, drop the lock, and report
whether zone_lock_idx now equals this zone's idx (the loop's break
condition). -/
def tryAcquire (idx : Str) (lk : Option Str) : Option Str × Bool :=
  let lk2 := if lk = none then some idx else lk
  (lk2, decide (lk2 = some idx))

/-- Schedule._obtain_lock: repeat tryAcquire until it succeeds; the fuel
counts loop iterations (each failed attempt sleeps and retries). -/
def _obtain_lock (idx : Str) : Nat → Option Str → Option Str × Bool
  | 0, lk => (lk, false)
  | fuel + 1, lk =>
    let r := tryAcquire idx lk
    if r.2 then (r.1, true) else _obtain_lock idx fuel r.1

/-- Schedule._release_lock: set zone_lock_idx back to None. -/
def _release_lock (lk : Option Str) : Option Str :=
  let _ := lk
  none

/-- How a schedule transaction that holds the lock ends: the polling loop
either sees schedule_done or hits the long timeout. -/
inductive SchedOutcome where
  | completed
  | timedOut
deriving DecidableEq

/-- Exit paths of Schedule.get_schedule after the lock was obtained
(command.py lines 579-591): on the long timeout the lock is released and
ExpiredCallbackError is raised; on completion the lock is released and
the schedule returned. -/
def get_schedule_exit (lk : Option Str) :
    SchedOutcome → Option Str × Except Str Unit
  | SchedOutcome.completed => (_release_lock lk, Except.ok ())
  | SchedOutcome.timedOut =>
    (_release_lock lk, Except.error ("failed to get schedule".toList))

/-- Exit paths of Schedule.set_schedule after the lock was obtained
(command.py lines 704-719), mirroring get_schedule. -/
def set_schedule_exit (lk : Option Str) :
    SchedOutcome → Option Str × Except Str Unit
  | SchedOutcome.completed => (_release_lock lk, Except.ok ())
  | SchedOutcome.timedOut =>
    (_release_lock lk, Except.error ("failed to set schedule".toList))

/-- A received schedule fragment as cached in rx_frags: the hex fragment
and the timestamp of the message that carried it (seconds). -/
structure Frag where
  fragment : Str
  dtm : Int
deriving DecidableEq

/-- FIVE_MINS of command.py, in seconds. -/
def FIVE_MINS : Int := 300

/-- The discard-stale loop of Schedule._rq_fragment's rq_callback
(command.py lines 623-625), transcribed faithfully: Python iterates over
the non-None cached fragments, binding each to the loop-local name frag,
and reassigns only that local name; rx_frags itself is never written, so
the cache is returned unchanged. -/
def discard_stale (rx_frags : List (Option Frag)) (msgDtm : Int) :
    List (Option Frag) :=
  let _ := (rx_frags.filterMap id).map
    (fun frag => if frag.dtm < msgDtm - FIVE_MINS then (none : Option Frag)
      else some frag)
  rx_frags

/-- The pruning the claim (and the source's own comment) describe: every
cached fragment whose message timestamp is more than five minutes older
than the newest received fragment's is dropped, its slot becoming None
again. -/
def discard_stale_claim (rx_frags : List (Option Frag)) (msgDtm : Int) :
    List (Option Frag) :=
  rx_frags.map (fun o =>
    match o with
    | some frag => if frag.dtm < msgDtm - FIVE_MINS then none else some frag
    | none => none)

/-- A parsed 0404 reply as seen by the schedule callback. -/
structure FragMsg where
  frag_total : Nat
  frag_index : Nat
  fragment : Str
  dtm : Int
deriving DecidableEq

/-- The rq_callback of Schedule._rq_fragment on a non-None message
(command.py lines 597-630): on frag_total 255 keep the cache (the source
only logs), on a new frag_total resize to that many empty slots, store the
fragment at frag_index - 1, run the discard-stale loop, and report whether
slots are still missing (in which case the next fragment is requested). -/
def schedule_rq_callback (rx_frags : List (Option Frag)) (msg : FragMsg) :
    List (Option Frag) × Bool :=
  let frags1 :=
    if msg.frag_total = 255 then rx_frags
    else if msg.frag_total ≠ rx_frags.length then
      List.replicate msg.frag_total (none : Option Frag)
    else rx_frags
  let frags2 := frags1.set (msg.frag_index - 1) (some ⟨msg.fragment, msg.dtm⟩)
  let frags3 := discard_stale frags2 msg.dtm
  (frags3, frags3.any (fun o => decide (o = none)))

/-- A device of the topology (devices.py is not in src/; only the
identity and the two-character type are needed here). -/
structure Device where
  id : Str
  type : Str
deriving DecidableEq

/-- Errors of the System property setters: TypeError for a device of the
wrong type, LookupError for a conflicting reassignment. -/
inductive SetErr where
  | typeError
  | lookupError
deriving DecidableEq

/-- The System.boiler_control setter (system.py lines 126-140): reject a
device that is not a 10: or 13:, raise LookupError when a different
device is already assigned, assign only when unset (assigning the same
device again is a no-op). -/
def set_boiler_control (cur : Option Device) (device : Device) :
    Except SetErr (Option Device) :=
  if ¬ (device.type = "10".toList ∨ device.type = "13".toList) then
    Except.error SetErr.typeError
  else
    match cur with
    | some d =>
      if d ≠ device then Except.error SetErr.lookupError else Except.ok (some d)
    | none => Except.ok (some device)

/-- A DHW zone, compared by identity as in the source. -/
structure DhwZone where
  id : Str
deriving DecidableEq

/-- The System.dhw setter (system.py lines 107-119): raise LookupError
when a different DhwZone is already assigned, assign only when unset (the
isinstance ValueError guard is subsumed by typing). -/
def set_dhw (cur : Option DhwZone) (dhw : DhwZone) :
    Except SetErr (Option DhwZone) :=
  match cur with
  | some d =>
    if d ≠ dhw then Except.error SetErr.lookupError else Except.ok (some d)
  | none => Except.ok (some dhw)

/-- A candidate temperature sensor as find_zone_sensors sees a device:
identity, owning controller, address type, last announced temperature,
owning zone, and the timestamp of its last 30C9 message (0 when it never
sent one). -/
structure Sensor where
  id : Str
  ctl : Option Str
  type : Str
  temperature : Option Int
  zone : Option Str
  last30c9 : Nat
deriving DecidableEq

/-- changed_zones of find_zone_sensors: the entries of the current 30C9
array payload that do not occur in the previous one, keyed by zone index
(system.py lines 353-357). -/
def changed_zones (payload prevPayload : List (Str × Option Int)) :
    List (Str × Option Int) :=
  payload.filter (fun z => decide (z ∉ prevPayload))

/-- testable_zones of find_zone_sensors (system.py lines 362-367): the
changed zones that currently have no sensor and whose temperature is
non-null and unique among the changed temperatures. -/
def testable_zones (changed : List (Str × Option Int))
    (zones : List (Str × Option Str)) : List (Str × Option Int) :=
  changed.filter (fun zt =>
    decide (dictGet zones zt.1 = some none ∧
      zt.2 ∉ (changed.filter (fun kv => decide (kv.1 ≠ zt.1))).map Prod.snd
        ++ [none]))

/-- testable_sensors of find_zone_sensors (system.py lines 375-382): the
gateway's devices whose controller is this system or unknown, whose type
is in DEVICE_HAS_ZONE_SENSOR (const.py, not in src/, taken as the
parameter sensorTypes), that have a temperature, and whose last 30C9
arrived after the previous controller array. -/
def testable_sensors (devices : List Sensor) (selfId : Str)
    (sensorTypes : List Str) (prevDtm : Nat) : List Sensor :=
  devices.filter (fun d =>
    decide ((d.ctl = some selfId ∨ d.ctl = none) ∧ d.type ∈ sensorTypes ∧
      d.temperature ≠ none ∧ prevDtm < d.last30c9))

/-- matching_sensors of find_zone_sensors (system.py lines 397-401): the
testable sensors announcing exactly the zone's temperature whose zone is
this zone or unknown. -/
def matching_sensors (sensors : List Sensor) (zone_idx : Str)
    (temp : Option Int) : List Sensor :=
  sensors.filter (fun s =>
    decide (s.temperature = temp ∧ (s.zone = some zone_idx ∨ s.zone = none)))

/-- The main matching loop of find_zone_sensors (system.py lines
394-416): for each testable zone, bind its sensor exactly when a single
sensor matches.  (The source also points the matched sensor's controller
at this system; that does not feed back into the zone map.) -/
def match_loop (sensors : List Sensor) :
    List (Str × Option Int) → List (Str × Option Str) →
    List (Str × Option Str)
  | [], zones => zones
  | zt :: rest, zones =>
    match matching_sensors sensors zt.1 zt.2 with
    | [s] => match_loop sensors rest (dictSet zones zt.1 (some s.id))
    | _ => match_loop sensors rest zones

/-- The source or destination of an inbound message: the device's id, its
two-character type, and the id of the controller it is bound to, if any. -/
structure MsgDevice where
  id : Str
  type : Str
  controller : Option Str
deriving DecidableEq

/-- A parsed message payload as EvoSystem.update needs it: a per-zone
array (30C9), a fault-log entry keyed by its log_idx hex string (0418),
or anything else. -/
inductive MsgPayload where
  | arr (xs : List (Str × Option Int))
  | faultEntry (log_idx : Str)
  | other
deriving DecidableEq

/-- isinstance(msg.payload, list): whether the payload is a per-zone
array. -/
def MsgPayload.isArr : MsgPayload → Bool
  | MsgPayload.arr _ => true
  | _ => false

/-- An inbound message (class Message lives outside src/; the fields are
those update reads). -/
structure Msg where
  verb : Str
  code : Str
  src : MsgDevice
  dst : MsgDevice
  dtm : Nat
  payload : MsgPayload
deriving DecidableEq

/-- The mutable per-system state that EvoSystem.update touches: the fault
log keyed by the raw log_idx payload value, the previous 30C9 array
message, the zone-to-sensor map, the heat relay, the DHW sensor, and the
zone for which the controller itself acts as sensor (the controller
device's _zone). -/
structure SysState where
  fault_log : List (Str × Msg)
  prev_30c9 : Option Msg
  zones : List (Str × Option Str)
  boiler_control : Option Device
  dhw_sensor : Option Str
  ctl_zone : Option Str
deriving DecidableEq

/-- find_htg_relay of EvoSystem.update (system.py lines 239-280): pick the
heat relay from a 3220 RQ to a 10:, a 3EF0 RQ to a 10: or 13:, or a 3B00
I/I pair whose previous message came from a 13:; then run the sticky
boiler_control setter (a LookupError on a conflicting device leaves the
assignment unchanged). -/
def find_htg_relay (selfId : Str) (st : SysState) (this : Msg)
    (prev : Option Msg) : SysState :=
  let heater : Option MsgDevice :=
    if this.code = "3220".toList ∧ this.verb = "RQ".toList then
      (if this.src.id = selfId ∧ this.dst.type = "10".toList then
        some this.dst else none)
    else if this.code = "3EF0".toList ∧ this.verb = "RQ".toList then
      (if this.src.id = selfId ∧
          (this.dst.type = "10".toList ∨ this.dst.type = "13".toList) then
        some this.dst else none)
    else if this.code = "3B00".toList ∧ this.verb = " I".toList then
      match prev with
      | some pm =>
        if pm.code = this.code ∧ pm.verb = this.verb ∧ this.src.id = selfId ∧
            pm.src.type = "13".toList then some pm.src else none
      | none => none
    else none
  match heater with
  | some h =>
    match set_boiler_control st.boiler_control ⟨h.id, h.type⟩ with
    | Except.ok v => { st with boiler_control := v }
    | Except.error _ => st
  | none => st

/-- find_dhw_sensor of EvoSystem.update (system.py lines 282-314): a 10A0
RP from this controller to a 07: makes that 07: the DHW temperature
sensor (the DhwZone is created when absent; its temp_sensor setter lives
in zones.py, not in src/, and is modelled from the spec as recording the
sensor). -/
def find_dhw_sensor (selfId : Str) (st : SysState) (this : Msg) : SysState :=
  if this.code = "10A0".toList ∧ this.verb = "RP".toList ∧
      this.src.id = selfId ∧ this.dst.type = "07".toList then
    { st with dhw_sensor := some this.dst.id }
  else st

/-- find_zone_sensors of EvoSystem.update (system.py lines 316-459): swap
in the new previous-30C9 message, bail out when there is no previous
array, no sensorless zone, no 1F09 sync-cycle bound or a stale previous
array, no changed zone or no testable zone; otherwise run the matching
loop over the testable sensors, then the exclusion step that can bind the
controller itself as the sole remaining sensorless zone's sensor when no
testable sensor matched it. -/
def find_zone_sensors (selfId : Str) (sensorTypes : List Str)
    (devices : List Sensor) (secs1f09 : Option Nat) (st : SysState)
    (msg : Msg) : SysState :=
  let prev := st.prev_30c9
  let st1 := { st with prev_30c9 := some msg }
  match prev with
  | none => st1
  | some pm =>
    if (st1.zones.filter (fun z => decide (z.2 = none))).length = 0 then st1
    else
      match secs1f09 with
      | none => st1
      | some secs =>
        if pm.dtm + secs < msg.dtm then st1
        else
          let arr := match msg.payload with | MsgPayload.arr xs => xs | _ => []
          let prevArr :=
            match pm.payload with | MsgPayload.arr xs => xs | _ => []
          let changed := changed_zones arr prevArr
          if changed.isEmpty then st1
          else
            let tz := testable_zones changed st1.zones
            if tz.isEmpty then st1
            else
              let ts := testable_sensors devices selfId sensorTypes pm.dtm
              let st2 :=
                if ts.isEmpty then st1
                else { st1 with zones := match_loop ts tz st1.zones }
              if st2.ctl_zone ≠ none then st2
              else if (st2.zones.filter (fun z => decide (z.2 = none))).length
                  ≠ 1 then st2
              else
                let tz2 := changed.filter (fun zt =>
                  decide (dictGet st2.zones zt.1 = some none))
                match tz2 with
                | [] => st2
                | (z, t) :: _ =>
                  if (matching_sensors ts z t).isEmpty then
                    { st2 with
                      zones := dictSet st2.zones z (some selfId)
                      ctl_zone := some z }
                  else st2

/-- The part of EvoSystem.update that runs before the cross-system guard
(system.py lines 464-478): record a 0418 I/RP in the fault log keyed by
its log_idx payload value, run find_zone_sensors on a 30C9 array, and
fall through the no-op 3EF1 branch. -/
def update_early (selfId : Str) (sensorTypes : List Str)
    (devices : List Sensor) (secs1f09 : Option Nat) (st : SysState)
    (msg : Msg) : SysState :=
  let st1 :=
    if msg.code = "0418".toList ∧
        (msg.verb = " I".toList ∨ msg.verb = "RP".toList) then
      match msg.payload with
      | MsgPayload.faultEntry li =>
        { st with fault_log := dictSet st.fault_log li msg }
      | _ => st
    else st
  if msg.code = "30C9".toList ∧ msg.payload.isArr = true then
    find_zone_sensors selfId sensorTypes devices secs1f09 st1 msg
  else st1

/-- The part of EvoSystem.update that runs after the cross-system guard
(system.py lines 487-491): heat-relay discovery on 3220/3B00/3EF0 and DHW
sensor discovery on 10A0/1260. -/
def update_late (selfId : Str) (st : SysState) (msg : Msg)
    (prev : Option Msg) : SysState :=
  let st3 :=
    if msg.code ∈ ["3220".toList, "3B00".toList, "3EF0".toList] then
      find_htg_relay selfId st msg prev
    else st
  if msg.code ∈ ["10A0".toList, "1260".toList] then
    find_dhw_sensor selfId st3 msg
  else st3

/-- EvoSystem.update (system.py lines 233-491): the early steps, then the
guard — return early when the previous message's source has a controller
that is set and is not this system — then the discovery steps. -/
def update (selfId : Str) (sensorTypes : List Str) (devices : List Sensor)
    (secs1f09 : Option Nat) (st : SysState) (msg : Msg) (prev : Option Msg) :
    SysState :=
  let st2 := update_early selfId sensorTypes devices secs1f09 st msg
  match prev with
  | some pm =>
    if pm.src.controller ≠ none ∧ pm.src.controller ≠ some selfId then st2
    else update_late selfId st2 msg prev
  | none => update_late selfId st2 msg prev

/-- Scenario S1: Command(W, 01:145038, 2309, 0107D0), created at time 0. -/
def exCmd2309 : Command :=
  mkCommand (" W".toList) (some ("01:145038".toList)) ("2309".toList)
    ("0107D0".toList) 0

/-- Scenario S6: command A, priority DEFAULT, created first. -/
def cmdA : Command :=
  { verb := (" W".toList)
    from_addr := HGI_id
    dest_addr := ("01:145038".toList)
    code := ("2309".toList)
    payload := ("0107D0".toList)
    priority := Priority.DEFAULT
    priority_dtm := 0 }

/-- Scenario S6: command B, priority HIGH, created second. -/
def cmdB : Command := { cmdA with priority := Priority.HIGH, priority_dtm := 1 }

/-- Scenario S6: command C, priority HIGH, created third. -/
def cmdC : Command := { cmdA with priority := Priority.HIGH, priority_dtm := 2 }

/-- A command with priority 4 and creation time 7. -/
def cmdP : Command :=
  { verb := ("RQ".toList)
    from_addr := HGI_id
    dest_addr := ("01:145038".toList)
    code := ("0004".toList)
    payload := ("0000".toList)
    priority := 4
    priority_dtm := 7 }

/-- A command differing from cmdP in verb, destination, code and payload,
with the same priority 4 and creation time 7. -/
def cmdQ : Command :=
  { verb := (" W".toList)
    from_addr := HGI_id
    dest_addr := ("13:163733".toList)
    code := ("2309".toList)
    payload := ("0107D0".toList)
    priority := 4
    priority_dtm := 7 }

/-- A command whose payload is 98 hex characters long. -/
def exCmd98 : Command :=
  mkCommand (" W".toList) (some ("01:145038".toList)) ("2309".toList)
    (List.replicate 98 '0') 0

/-- The parsed payload of a 0418 null-RP reply: nothing besides the log
index. -/
def nullRpParsed : List (Str × Str) := [(("log_idx".toList), ("00".toList))]

/-- An oracle whose controller always answers with the null-RP reply. -/
def nullOracle : Nat → Option (List (Str × Str)) := fun _ => some nullRpParsed

/-- A parsed 0418 reply carrying an entry at log index 1. -/
def exLogPayload : List (Str × Str) :=
  [(("log_idx".toList), ("01".toList)),
   (("timestamp".toList), ("21-01-01T00:00:00".toList))]

/-- A cached schedule fragment received at time 0. -/
def staleFrag : Frag := { fragment := ("68".toList), dtm := 0 }

/-- A 10: OpenTherm bridge device. -/
def dev10a : Device := { id := ("10:111111".toList), type := ("10".toList) }

/-- A 13: TPI relay device. -/
def dev13b : Device := { id := ("13:222222".toList), type := ("13".toList) }

/-- A DHW zone. -/
def dhwA : DhwZone := { id := ("FA".toList) }

/-- A different DHW zone. -/
def dhwB : DhwZone := { id := ("FB".toList) }

/-- A testable sensor announcing 19.50 degrees, bound to no zone. -/
def sensor34 : Sensor :=
  { id := ("34:010203".toList)
    ctl := none
    type := ("34".toList)
    temperature := some 1950
    zone := none
    last30c9 := 10 }

/-- Changed zones of a 30C9 array: two zones with distinct temperatures. -/
def exChanged : List (Str × Option Int) :=
  [(("00".toList), some 1950), (("01".toList), some 2100)]

/-- Two sensorless zones. -/
def exZones : List (Str × Option Str) := [(("00".toList), none), (("01".toList), none)]

/-- The controller id of the system under test. -/
def ex9_self : Str := "01:145038".toList

/-- A 0418 fault-log message whose source device belongs to another
system (its controller is 01:999999). -/
def ex9_msg : Msg :=
  { verb := ("RP".toList)
    code := ("0418".toList)
    src := { id := ("13:333333".toList), type := ("13".toList),
             controller := some ("01:999999".toList) }
    dst := { id := HGI_id, type := ("18".toList), controller := none }
    dtm := 50
    payload := MsgPayload.faultEntry ("00".toList) }

/-- A fresh system state: nothing discovered yet. -/
def ex9_st : SysState :=
  { fault_log := []
    prev_30c9 := none
    zones := []
    boiler_control := none
    dhw_sensor := none
    ctl_zone := none }

/-- A previous message whose source belongs to another system. -/
def ex9_prev : Msg :=
  { verb := (" I".toList)
    code := ("3B00".toList)
    src := { id := ("13:333333".toList), type := ("13".toList),
             controller := some ("01:999999".toList) }
    dst := { id := ("13:333333".toList), type := ("13".toList),
             controller := some ("01:999999".toList) }
    dtm := 49
    payload := MsgPayload.other }

/-- Looking a key up after setting it yields the new value. -/
theorem dictGet_dictSet_self {κ α : Type} [DecidableEq κ]
    (m : List (κ × α)) (k : κ) (v : α) : dictGet (dictSet m k v) k = some v := by
  induction m with
  | nil => simp [dictSet, dictGet]
  | cons kv rest ih =>
    by_cases h : kv.1 = k
    · simp [dictSet, dictGet, h]
    · simp [dictSet, dictGet, h, ih]

/-- Setting one key leaves lookups of other keys unchanged. -/
theorem dictGet_dictSet_other {κ α : Type} [DecidableEq κ]
    (m : List (κ × α)) (k k2 : κ) (v : α) (h : k ≠ k2) :
    dictGet (dictSet m k v) k2 = dictGet m k2 := by
  induction m with
  | nil => simp [dictSet, dictGet, h]
  | cons kv rest ih =>
    by_cases h2 : kv.1 = k
    · simp [dictSet, dictGet, h2, h]
    · simp [dictSet, dictGet, h2, ih]

/-- C2: the order on Commands is total and lexicographic on the pair
(priority, creation time): a sorts before b iff a's numeric priority is
lower, or the priorities are equal and a was created earlier; any two
commands are comparable; and commands A (DEFAULT, first), B (HIGH,
second), C (HIGH, third) transmit in the order B, C, A. -/
theorem C2_command_ordering :
    (∀ a b : Command, a.lt b = true ↔
      (a.priority < b.priority ∨
        (a.priority = b.priority ∧ a.priority_dtm < b.priority_dtm))) ∧
    (∀ a b : Command, a.lt b = true ∨ a.eq b = true ∨ b.lt a = true) ∧
    sortCmds [cmdA, cmdB, cmdC] = [cmdB, cmdC, cmdA] := by
  refine ⟨?_, ?_, ?_⟩
  · intro a b
    simp [Command.lt]
  · intro a b
    simp [Command.lt, Command.eq]
    omega
  · decide

/-- C10: equality and ordering of Commands ignore their content: whenever
the priorities and creation timestamps agree, the commands compare equal
and neither is less than the other; in particular this holds for cmdP and
cmdQ, which differ in verb, destination, code and payload. -/
theorem C10_ordering_ignores_content :
    (∀ a b : Command, a.priority = b.priority →
      a.priority_dtm = b.priority_dtm →
      a.eq b = true ∧ a.lt b = false ∧ b.lt a = false) ∧
    (cmdP.verb ≠ cmdQ.verb ∧ cmdP.dest_addr ≠ cmdQ.dest_addr ∧
      cmdP.code ≠ cmdQ.code ∧ cmdP.payload ≠ cmdQ.payload ∧
      cmdP.eq cmdQ = true ∧ cmdP.lt cmdQ = false ∧ cmdQ.lt cmdP = false) := by
  constructor
  · intro a b h1 h2
    simp [Command.eq, Command.lt, h1, h2]
  · decide

/-- Witness for C10: the general part applied to the concrete pair cmdP,
cmdQ. -/
theorem C10_ordering_ignores_content_witness :
    cmdP.eq cmdQ = true ∧ cmdP.lt cmdQ = false ∧ cmdQ.lt cmdP = false :=
  C10_ordering_ignores_content.1 cmdP cmdQ (by decide) (by decide)

/-- C7: the payload-length check of Command.is_valid is dead code: the
Python chained comparison 0 > len(payload) > 96 is the conjunction
(0 > len) and (len > 96), which is always false, so is_valid reduces to
the regex match alone; in particular a command with a 98-character hex
payload is accepted as valid (its construction does not raise), contrary
to the claimed 96-character bound. -/
theorem C7_length_check_dead :
    (∀ c : Command, is_valid c = COMMAND_REGEX_match c) ∧
    exCmd98.payload.length = 98 ∧ is_valid exCmd98 = true := by
  refine ⟨?_, by decide, by decide⟩
  intro c
  unfold is_valid
  cases h : COMMAND_REGEX_match c <;> simp [h]

/-- C8: the discard-stale loop of the schedule callback has no effect —
it rebinds only the loop-local variable — so the cache it returns is
always the cache it was given; on a cache holding a fragment from time 0
and a newest fragment at time 301 s the source keeps the stale fragment,
while the claimed pruning would clear its slot. -/
theorem C8_discard_stale_noop :
    (∀ (frags : List (Option Frag)) (msgDtm : Int),
      discard_stale frags msgDtm = frags) ∧
    discard_stale [some staleFrag] 301 = [some staleFrag] ∧
    discard_stale_claim [some staleFrag] 301 = [none] := by
  refine ⟨fun frags msgDtm => rfl, rfl, by decide⟩

/-- C5: heat-relay and DHW assignments are sticky: with a device already
assigned, assigning any different device fails (no ok result, so the
stored value is unchanged), while re-assigning the same device succeeds
and changes nothing; likewise for the DHW zone. -/
theorem C5_sticky_assignments :
    (∀ d d2 : Device, d ≠ d2 →
      ∀ v, set_boiler_control (some d) d2 ≠ Except.ok v) ∧
    (∀ d : Device, (d.type = "10".toList ∨ d.type = "13".toList) →
      set_boiler_control (some d) d = Except.ok (some d)) ∧
    (∀ z z2 : DhwZone, z ≠ z2 →
      set_dhw (some z) z2 = Except.error SetErr.lookupError) ∧
    (∀ z : DhwZone, set_dhw (some z) z = Except.ok (some z)) := by
  refine ⟨?_, ?_, ?_, ?_⟩
  · intro d d2 hne v
    unfold set_boiler_control
    split_ifs with h1 <;> simp [hne]
  · intro d ht
    rcases ht with h | h <;> simp [set_boiler_control, h]
  · intro z z2 hne
    simp [set_dhw, hne]
  · intro z
    simp [set_dhw]

/-- Witness for C5: a 10: relay already assigned rejects a different 13:
relay, accepts itself again; same shape for DHW zones. -/
theorem C5_sticky_assignments_witness :
    (∀ v, set_boiler_control (some dev10a) dev13b ≠ Except.ok v) ∧
    set_boiler_control (some dev10a) dev10a = Except.ok (some dev10a) ∧
    set_dhw (some dhwA) dhwB = Except.error SetErr.lookupError ∧
    set_dhw (some dhwA) dhwA = Except.ok (some dhwA) :=
  ⟨C5_sticky_assignments.1 dev10a dev13b (by decide),
   C5_sticky_assignments.2.1 dev10a (by decide),
   C5_sticky_assignments.2.2.1 dhwA dhwB (by decide),
   C5_sticky_assignments.2.2.2 dhwA⟩

/-- C4: schedule transactions exclude each other and always release the
lock: while zone_lock_idx is held by zone k, any other zone's acquisition
loop neither changes the lock nor proceeds, however long it spins; and on
both exit paths of get_schedule and set_schedule — completion and the
ExpiredCallbackError timeout — zone_lock_idx is reset to None. -/
theorem C4_schedule_lock :
    (∀ (k j : Str), j ≠ k →
      ∀ fuel, _obtain_lock j fuel (some k) = (some k, false)) ∧
    (∀ (lk : Option Str) (o : SchedOutcome), (get_schedule_exit lk o).1 = none) ∧
    (∀ (lk : Option Str) (o : SchedOutcome), (set_schedule_exit lk o).1 = none) := by
  refine ⟨?_, ?_, ?_⟩
  · intro k j hne fuel
    induction fuel with
    | zero => rfl
    | succ n ih =>
      have hkj : ¬ (k = j) := fun h => hne h.symm
      simp [_obtain_lock, tryAcquire, hkj, ih]
  · intro lk o
    cases o <;> rfl
  · intro lk o
    cases o <;> rfl

/-- Witness for C4: zone 01 spinning three times on a lock held by zone
00 gets nowhere and leaves the lock in place. -/
theorem C4_schedule_lock_witness :
    _obtain_lock ("01".toList) 3 (some ("00".toList)) =
      (some ("00".toList), false) :=
  C4_schedule_lock.1 ("00".toList) ("01".toList) (by decide) 3

/-- C3: the fault-log driver pulls sequentially.  A full run against a
controller that answers log_idx 0 with the null-RP reply completes with
an empty map having requested only index 0; a reply carrying an entry is
stored at its log index and the next index is requested exactly when the
index is below the limit; a null-RP reply completes with no further
request and no store. -/
theorem C3_fault_log_driver :
    get_fault_log FaultLog_limit nullOracle 5 = ([], true, [0]) ∧
    (∀ (limit : Nat) (fl : List (Nat × List (Str × Str)))
        (payload entry : List (Str × Str)) (li : Str),
      dictGet payload ("log_idx".toList) = some li →
      payload.filter (fun kv => decide (kv.1 ≠ "log_idx".toList)) = entry →
      entry ≠ [] →
      rq_log_callback limit fl (some payload) =
        (if hexToNat li < limit then
          (dictSet fl (hexToNat li) entry, false, some (hexToNat li + 1))
        else (dictSet fl (hexToNat li) entry, true, none))) ∧
    (∀ (limit : Nat) (fl : List (Nat × List (Str × Str)))
        (payload : List (Str × Str)) (li : Str),
      dictGet payload ("log_idx".toList) = some li →
      payload.filter (fun kv => decide (kv.1 ≠ "log_idx".toList)) = [] →
      rq_log_callback limit fl (some payload) = (fl, true, none)) := by
  refine ⟨by decide, ?_, ?_⟩
  · intro limit fl payload entry li hli hfil hne
    simp only [rq_log_callback, hli, hfil, Option.getD_some]
    cases entry with
    | nil => exact absurd rfl hne
    | cons e es => by_cases h : hexToNat li < limit <;> simp [h]
  · intro limit fl payload li hli hfil
    simp only [rq_log_callback, hli, Option.getD_some]
    rw [hfil]
    simp

/-- Witness for C3: a reply carrying an entry at log index 1 (below the
default limit 11) stores it and asks for index 2. -/
theorem C3_fault_log_driver_witness :
    rq_log_callback FaultLog_limit [] (some exLogPayload) =
      ([(1, [(("timestamp".toList), ("21-01-01T00:00:00".toList))])],
        false, some 2) := by
  have h := C3_fault_log_driver.2.1 FaultLog_limit [] exLogPayload
    [(("timestamp".toList), ("21-01-01T00:00:00".toList))] ("01".toList)
    (by decide) (by decide) (by decide)
  rw [h]
  decide

/-- Dropping the length of a left append factor exposes the right factor. -/
theorem drop_app {a : Str} (b : Str) {n : Nat} (h : a.length = n) :
    (a ++ b).drop n = b := by
  subst h
  exact List.drop_left a b

/-- Taking the length of a left append factor yields that factor. -/
theorem take_app {a : Str} (b : Str) {n : Nat} (h : a.length = n) :
    (a ++ b).take n = a := by
  subst h
  exact List.take_left a b

/-- pad3 always renders exactly three characters. -/
theorem pad3_length (n : Nat) : (pad3 n).length = 3 := by
  unfold pad3
  split_ifs <;> rfl

/-- The fixed offsets used by _pkt_header recover exactly the fields of a
well-formed command's packet string. -/
theorem cmdPkt_parts (c : Command) (hv : c.verb.length = 2)
    (hf : c.from_addr.length = 9) (hd : c.dest_addr.length = 9)
    (hc : c.code.length = 4) :
    pySlice (cmdPkt c) 4 6 = c.verb ∧
    pySlice (cmdPkt c) 41 45 = c.code ∧
    pySlice (cmdPkt c) 11 20 = c.from_addr ∧
    pySlice (cmdPkt c) 21 30 = c.dest_addr ∧
    pySlice (cmdPkt c) 11 13 = c.from_addr.take 2 ∧
    (cmdPkt c).drop 50 = c.payload := by
  have e04 : cmdPkt c =
      ("... ".toList) ++
        (c.verb ++ (" --- ".toList ++ (c.from_addr ++ (" ".toList ++
          (c.dest_addr ++ (" --:------ ".toList ++ (c.code ++ (" ".toList ++
            (pad3 (c.payload.length / 2) ++
              (" ".toList ++ c.payload)))))))))) := by
    simp [cmdPkt, cmdStr]
  have e11 : cmdPkt c =
      ("... ".toList ++ c.verb ++ " --- ".toList) ++
        (c.from_addr ++ (" ".toList ++ (c.dest_addr ++ (" --:------ ".toList ++
          (c.code ++ (" ".toList ++ (pad3 (c.payload.length / 2) ++
            (" ".toList ++ c.payload)))))))) := by
    simp [cmdPkt, cmdStr]
  have e21 : cmdPkt c =
      ("... ".toList ++ c.verb ++ " --- ".toList ++ c.from_addr ++
          " ".toList) ++
        (c.dest_addr ++ (" --:------ ".toList ++ (c.code ++ (" ".toList ++
          (pad3 (c.payload.length / 2) ++ (" ".toList ++ c.payload)))))) := by
    simp [cmdPkt, cmdStr]
  have e41 : cmdPkt c =
      ("... ".toList ++ c.verb ++ " --- ".toList ++ c.from_addr ++
          " ".toList ++ c.dest_addr ++ " --:------ ".toList) ++
        (c.code ++ (" ".toList ++ (pad3 (c.payload.length / 2) ++
          (" ".toList ++ c.payload)))) := by
    simp [cmdPkt, cmdStr]
  have e50 : cmdPkt c =
      ("... ".toList ++ c.verb ++ " --- ".toList ++ c.from_addr ++
          " ".toList ++ c.dest_addr ++ " --:------ ".toList ++ c.code ++
          " ".toList ++ pad3 (c.payload.length / 2) ++ " ".toList) ++
        c.payload := by
    simp [cmdPkt, cmdStr]
  have hP11 : ("... ".toList ++ c.verb ++ " --- ".toList).length = 11 := by
    simp only [List.length_append, hv]
    decide
  have hP21 : ("... ".toList ++ c.verb ++ " --- ".toList ++ c.from_addr ++
      " ".toList).length = 21 := by
    simp only [List.length_append, hv, hf]
    decide
  have hP41 : ("... ".toList ++ c.verb ++ " --- ".toList ++ c.from_addr ++
      " ".toList ++ c.dest_addr ++ " --:------ ".toList).length = 41 := by
    simp only [List.length_append, hv, hf, hd]
    decide
  have hP50 : ("... ".toList ++ c.verb ++ " --- ".toList ++ c.from_addr ++
      " ".toList ++ c.dest_addr ++ " --:------ ".toList ++ c.code ++
      " ".toList ++ pad3 (c.payload.length / 2) ++ " ".toList).length = 50 := by
    simp only [List.length_append, hv, hf, hd, hc, pad3_length]
    decide
  refine ⟨?_, ?_, ?_, ?_, ?_, ?_⟩
  · norm_num [pySlice]
    rw [e04, drop_app _ (by decide)]
    exact take_app _ hv
  · norm_num [pySlice]
    rw [e41, drop_app _ hP41]
    exact take_app _ hc
  · norm_num [pySlice]
    rw [e11, drop_app _ hP11]
    exact take_app _ hf
  · norm_num [pySlice]
    rw [e21, drop_app _ hP21]
    exact take_app _ hd
  · norm_num [pySlice]
    rw [e11, drop_app _ hP11]
    rw [List.take_append_of_le_length
      (show 2 ≤ c.from_addr.length by omega)]
  · rw [e50]
    exact drop_app _ hP50

/-- C1: for every valid command (well-formed verb, addresses and code),
the TX correlation header is verb, peer address and code joined by bars
with the code-specific context suffix of the claim, and the RX header is
the TX header with the verb rewritten (RQ to RP, W to I) except that
codes 0001 and 7FFF have none; in particular the scenario-S1 zone
setpoint command has the claimed TX and RX headers. -/
theorem C1_headers :
    (∀ (sans : List Str) (null_rp : Str) (c : Command),
      (c.verb = " I".toList ∨ c.verb = "RQ".toList ∨ c.verb = " W".toList) →
      c.from_addr.length = 9 → c.dest_addr.length = 9 → c.code.length = 4 →
      c.payload.length ≤ 96 →
      tx_header sans null_rp c = some (spec_tx sans null_rp c) ∧
      rx_header sans null_rp c = spec_rx sans null_rp c) ∧
    tx_header [] [] exCmd2309 = some (" W|01:145038|2309|01".toList) ∧
    rx_header [] [] exCmd2309 = some (" I|01:145038|2309|01".toList) := by
  refine ⟨?_, by decide, by decide⟩
  intro sans null_rp c hverb hf hd hc hp
  have hv : c.verb.length = 2 := by
    rcases hverb with h | h | h <;> rw [h] <;> decide
  obtain ⟨p1, p2, p3, p4, p5, p6⟩ := cmdPkt_parts c hv hf hd hc
  have htx : tx_header sans null_rp c = some (spec_tx sans null_rp c) := by
    simp only [tx_header, _pkt_header, p1, p2, p3, p4, p5, p6, spec_tx,
      spec_peer, spec_context, Bool.false_eq_true, and_false, if_false]
    split_ifs <;> simp [List.append_assoc]
  refine ⟨htx, ?_⟩
  have hrw : (if c.verb = "RQ".toList then ("RP".toList) else (" I".toList)) =
      rewrite_verb c.verb := by
    rcases hverb with h | h | h <;> rw [h] <;> decide
  unfold rx_header
  rw [htx]
  show _pkt_header sans null_rp (cmdPkt c) true = spec_rx sans null_rp c
  simp only [_pkt_header, p1, p2, p3, p4, p5, p6, hrw, spec_rx, spec_peer,
    spec_context, and_true]
  split_ifs <;> simp [List.append_assoc]

/-- A zone index carried by no testable zone is untouched by the matching
loop. -/
theorem match_loop_notin (sensors : List Sensor)
    (tz : List (Str × Option Int)) (zs : List (Str × Option Str)) (k : Str)
    (h : k ∉ tz.map Prod.fst) :
    dictGet (match_loop sensors tz zs) k = dictGet zs k := by
  induction tz generalizing zs with
  | nil => rfl
  | cons a tl ih =>
    have hka : a.1 ≠ k := by
      intro he
      exact h (by simp [← he])
    have hk : k ∉ tl.map Prod.fst := by
      intro hm
      exact h (by simp [hm])
    rcases hms : matching_sensors sensors a.1 a.2 with _ | ⟨s, _ | ⟨s2, r⟩⟩
    · simp only [match_loop, hms]
      exact ih _ hk
    · simp only [match_loop, hms]
      rw [ih _ hk, dictGet_dictSet_other _ _ _ _ hka]
    · simp only [match_loop, hms]
      exact ih _ hk

/-- The matching loop's effect at each testable zone: exactly one
matching sensor binds it, any other number leaves it unchanged. -/
theorem match_loop_lookup (sensors : List Sensor)
    (tz : List (Str × Option Int)) (zs : List (Str × Option Str))
    (hnd : (tz.map Prod.fst).Nodup) (zt : Str × Option Int) (hmem : zt ∈ tz) :
    dictGet (match_loop sensors tz zs) zt.1 =
      (match matching_sensors sensors zt.1 zt.2 with
       | [s] => some (some s.id)
       | _ => dictGet zs zt.1) := by
  induction tz generalizing zs with
  | nil => cases hmem
  | cons a tl ih =>
    rw [List.map_cons] at hnd
    obtain ⟨hnda, hndtl⟩ := List.nodup_cons.mp hnd
    rcases List.mem_cons.mp hmem with he | hm
    · subst he
      have hnotin : zt.1 ∉ tl.map Prod.fst := hnda
      rcases hms : matching_sensors sensors zt.1 zt.2 with _ | ⟨s, _ | ⟨s2, r⟩⟩
      · simp only [match_loop, hms]
        rw [match_loop_notin _ _ _ _ hnotin]
      · simp only [match_loop, hms]
        rw [match_loop_notin _ _ _ _ hnotin, dictGet_dictSet_self]
      · simp only [match_loop, hms]
        rw [match_loop_notin _ _ _ _ hnotin]
    · have hne : a.1 ≠ zt.1 := by
        intro he
        exact hnda (he ▸ List.mem_map_of_mem Prod.fst hm)
      rcases hms : matching_sensors sensors a.1 a.2 with _ | ⟨s, _ | ⟨s2, r⟩⟩
      · simp only [match_loop, hms]
        exact ih zs hndtl hm
      · simp only [match_loop, hms]
        rw [ih (dictSet zs a.1 (some s.id)) hndtl hm]
        rcases hms2 : matching_sensors sensors zt.1 zt.2 with _ | ⟨t, _ | ⟨t2, r2⟩⟩
        · simp [dictGet_dictSet_other _ _ _ _ hne]
        · simp
        · simp [dictGet_dictSet_other _ _ _ _ hne]
      · simp only [match_loop, hms]
        exact ih zs hndtl hm

/-- C6: for each testable zone of a 30C9 array, the candidate sensors are
exactly the testable sensors announcing the zone's temperature whose zone
is this zone or unknown; a sole candidate is bound as the zone's sensor,
and zero or several candidates leave the zone unbound. -/
theorem C6_zone_sensor_matching :
    ∀ (sensors : List Sensor) (changed : List (Str × Option Int))
      (zones : List (Str × Option Str)),
      (changed.map Prod.fst).Nodup →
      ∀ zt ∈ testable_zones changed zones,
        (∀ s : Sensor, s ∈ matching_sensors sensors zt.1 zt.2 ↔
          (s ∈ sensors ∧ s.temperature = zt.2 ∧
            (s.zone = some zt.1 ∨ s.zone = none))) ∧
        (∀ s : Sensor, matching_sensors sensors zt.1 zt.2 = [s] →
          dictGet (match_loop sensors (testable_zones changed zones) zones)
            zt.1 = some (some s.id)) ∧
        ((matching_sensors sensors zt.1 zt.2).length ≠ 1 →
          dictGet (match_loop sensors (testable_zones changed zones) zones)
            zt.1 = dictGet zones zt.1) := by
  intro sensors changed zones hnd zt hmem
  have hnd2 : ((testable_zones changed zones).map Prod.fst).Nodup := by
    refine List.Nodup.sublist ?_ hnd
    exact (List.filter_sublist _).map Prod.fst
  refine ⟨?_, ?_, ?_⟩
  · intro s
    simp [matching_sensors, List.mem_filter]
  · intro s hms
    have h := match_loop_lookup sensors _ zones hnd2 zt hmem
    rw [hms] at h
    simpa using h
  · intro hlen
    have h := match_loop_lookup sensors _ zones hnd2 zt hmem
    rcases hms : matching_sensors sensors zt.1 zt.2 with _ | ⟨s, _ | ⟨s2, r⟩⟩
    · rw [hms] at h
      simpa using h
    · rw [hms] at hlen
      simp at hlen
    · rw [hms] at h
      simpa using h

/-- Witness for C6: with one testable sensor at 19.50 degrees and two
testable zones at 19.50 and 21.00, zone 00 is bound to the sensor (its
sole candidate) and zone 01 (no candidate) is left unchanged. -/
theorem C6_zone_sensor_matching_witness :
    dictGet (match_loop [sensor34] (testable_zones exChanged exZones) exZones)
      ("00".toList) = some (some sensor34.id) ∧
    dictGet (match_loop [sensor34] (testable_zones exChanged exZones) exZones)
      ("01".toList) = dictGet exZones ("01".toList) := by
  constructor
  · exact (C6_zone_sensor_matching [sensor34] exChanged exZones (by decide)
      (("00".toList), some 1950) (by decide)).2.1 sensor34 (by decide)
  · exact (C6_zone_sensor_matching [sensor34] exChanged exZones (by decide)
      (("01".toList), some 2100) (by decide)).2.2 (by decide)

/-- C9 counterexample: a 0418 fault-log message whose source device
belongs to another system is not dropped — update records it in this
system's fault log, changing the state. -/
theorem C9_counterexample :
    ex9_msg.src.controller = some ("01:999999".toList) ∧
    ex9_msg.src.controller ≠ some ex9_self ∧
    update ex9_self [] [] none ex9_st ex9_msg none ≠ ex9_st ∧
    dictGet (update ex9_self [] [] none ex9_st ex9_msg none).fault_log
      ("00".toList) = some ex9_msg := by decide

/-- C9 (amended): the cross-system guard keys on the previous message's
source: when prev_msg.src.controller is set and differs from this system,
update stops after the early steps (fault-log recording, zone-sensor
matching, the no-op 3EF1 branch), skipping only the heat-relay and
DHW-sensor discovery. -/
theorem C9_amended_guard :
    ∀ (selfId : Str) (sensorTypes : List Str) (devices : List Sensor)
      (secs1f09 : Option Nat) (st : SysState) (msg : Msg) (pm : Msg),
      pm.src.controller ≠ none → pm.src.controller ≠ some selfId →
      update selfId sensorTypes devices secs1f09 st msg (some pm) =
        update_early selfId sensorTypes devices secs1f09 st msg := by
  intro selfId sensorTypes devices secs1f09 st msg pm h1 h2
  simp [update, h1, h2]

/-- Witness for C9's amended theorem: with a foreign-controller previous
message, update reduces to the early steps. -/
theorem C9_amended_guard_witness :
    update ex9_self [] [] none ex9_st ex9_msg (some ex9_prev) =
      update_early ex9_self [] [] none ex9_st ex9_msg :=
  C9_amended_guard ex9_self [] [] none ex9_st ex9_msg ex9_prev
    (by decide) (by decide)

/-- Witness for C1: the general header law applied to the scenario-S1
command. -/
theorem C1_headers_witness :
    tx_header [] [] exCmd2309 = some (spec_tx [] [] exCmd2309) ∧
    rx_header [] [] exCmd2309 = spec_rx [] [] exCmd2309 :=
  C1_headers.1 [] [] exCmd2309 (by decide) (by decide) (by decide)
    (by decide) (by decide)
